import Mathlib

/-!
Verification of the eBird alert scraper (`scripts/scrape_ebird.py`).

A shallow embedding of the scraper's pure pipeline — field extraction from an
observation card, coordinate parsing from map-link URLs, record validation,
identifier derivation (MD5), the retry loop of `scrape_alerts`, and the
output-envelope construction of `main` / `create_output_json` — together with
theorems settling the specification's claims about that pipeline.

Conventions of the embedding:
* Python strings are Lean `String`s; a Python value that may be `None` is an
  `Option`.
* Python `float` values produced here all come from parsing short decimal
  strings, so they are modelled exactly as rationals (`ℚ`).
* A Python function that may raise inside a `try` block returns an `Option`
  (`none` = an exception escaped to the enclosing handler).
* The Playwright page/DOM capability is opaque in the source; a card is
  modelled as the tuple of answers the card gives to the fixed queries the
  code performs (one `query_selector` per literal selector string, plus the
  two `get_attribute` reads).
-/

/-! ## Python string primitives -/

/-- Python `str.strip()`: remove leading and trailing whitespace. -/
def pyStrip (s : String) : String :=
  ⟨((s.data.dropWhile Char.isWhitespace).reverse.dropWhile Char.isWhitespace).reverse⟩

/-- Python `str.lower()` (ASCII case folding, which is all the scraper needs). -/
def pyLower (s : String) : String :=
  ⟨s.data.map Char.toLower⟩

/-- Python truthiness of an optional string: `None` and `""` are falsy. -/
def strTruthy : Option String → Bool
  | none => false
  | some s => s != ""

/-- Numeric value of a list of decimal digit characters. -/
def digitsVal (l : List Char) : Nat :=
  l.foldl (fun acc c => 10 * acc + (c.toNat - 48)) 0

/-- The exact rational value of an unsigned decimal literal `ds . fs`. -/
def fracVal (ds fs : List Char) : ℚ :=
  (digitsVal ds : ℚ) + (digitsVal fs : ℚ) / ((10 : ℚ) ^ fs.length)

/-- Core of Python `float(s)` on an unsigned decimal string: digits with an
optional single `.` and fractional digits.  (The scraper only ever feeds
plain decimal attribute values to `float`; exponents, `inf`/`nan` and
underscores are outside the modelled subset.) -/
def pyFloatCore? (l : List Char) : Option ℚ :=
  let ds := l.takeWhile Char.isDigit
  let r := l.dropWhile Char.isDigit
  match r with
  | [] => if ds.isEmpty then none else some (digitsVal ds : ℚ)
  | '.' :: fs =>
      if fs.all Char.isDigit && !(ds.isEmpty && fs.isEmpty) then
        some (fracVal ds fs)
      else none
  | _ => none

/-- Python `float(s)` on the decimal subset: optional surrounding spaces,
optional sign, then an unsigned decimal literal.  `none` models a raised
`ValueError`. -/
def pyFloat? (s : String) : Option ℚ :=
  let l := ((s.data.dropWhile Char.isWhitespace).reverse.dropWhile
      Char.isWhitespace).reverse
  match l with
  | '-' :: rest => (pyFloatCore? rest).map (fun q => -q)
  | '+' :: rest => pyFloatCore? rest
  | _ => pyFloatCore? l

/-! ## MD5 (`hashlib.md5`)

A direct implementation of RFC 1321 on byte lists, with 32-bit words as
naturals reduced mod `2 ^ 32`. -/

/-- `2 ^ 32`. -/
def w32 : Nat := 4294967296

/-- 32-bit left rotation. -/
def rotl32 (x n : Nat) : Nat :=
  ((x <<< n) ||| (x >>> (32 - n))) % w32

/-- 32-bit bitwise complement (for `x < 2 ^ 32`). -/
def not32 (x : Nat) : Nat := Nat.xor x 4294967295

/-- The 64 MD5 sine-derived constants `K[i]`. -/
def md5K : List Nat :=
  [0xd76aa478, 0xe8c7b756, 0x242070db, 0xc1bdceee,
   0xf57c0faf, 0x4787c62a, 0xa8304613, 0xfd469501,
   0x698098d8, 0x8b44f7af, 0xffff5bb1, 0x895cd7be,
   0x6b901122, 0xfd987193, 0xa679438e, 0x49b40821,
   0xf61e2562, 0xc040b340, 0x265e5a51, 0xe9b6c7aa,
   0xd62f105d, 0x02441453, 0xd8a1e681, 0xe7d3fbc8,
   0x21e1cde6, 0xc33707d6, 0xf4d50d87, 0x455a14ed,
   0xa9e3e905, 0xfcefa3f8, 0x676f02d9, 0x8d2a4c8a,
   0xfffa3942, 0x8771f681, 0x6d9d6122, 0xfde5380c,
   0xa4beea44, 0x4bdecfa9, 0xf6bb4b60, 0xbebfbc70,
   0x289b7ec6, 0xeaa127fa, 0xd4ef3085, 0x04881d05,
   0xd9d4d039, 0xe6db99e5, 0x1fa27cf8, 0xc4ac5665,
   0xf4292244, 0x432aff97, 0xab9423a7, 0xfc93a039,
   0x655b59c3, 0x8f0ccc92, 0xffeff47d, 0x85845dd1,
   0x6fa87e4f, 0xfe2ce6e0, 0xa3014314, 0x4e0811a1,
   0xf7537e82, 0xbd3af235, 0x2ad7d2bb, 0xeb86d391]

/-- The 64 MD5 per-round rotation amounts `s[i]`. -/
def md5S : List Nat :=
  [7, 12, 17, 22, 7, 12, 17, 22, 7, 12, 17, 22, 7, 12, 17, 22,
   5, 9, 14, 20, 5, 9, 14, 20, 5, 9, 14, 20, 5, 9, 14, 20,
   4, 11, 16, 23, 4, 11, 16, 23, 4, 11, 16, 23, 4, 11, 16, 23,
   6, 10, 15, 21, 6, 10, 15, 21, 6, 10, 15, 21, 6, 10, 15, 21]

/-- One of the 64 MD5 operations; `M` gives the block's 32-bit words. -/
def md5Step (M : Nat → Nat) (st : Nat × Nat × Nat × Nat) (i : Nat) :
    Nat × Nat × Nat × Nat :=
  let (a, b, c, d) := st
  let fg : Nat × Nat :=
    if i < 16 then ((b &&& c) ||| (not32 b &&& d), i)
    else if i < 32 then ((d &&& b) ||| (not32 d &&& c), (5 * i + 1) % 16)
    else if i < 48 then (Nat.xor (Nat.xor b c) d, (3 * i + 5) % 16)
    else (Nat.xor c (b ||| not32 d), (7 * i) % 16)
  let f := (fg.1 + a + md5K.getD i 0 + M fg.2) % w32
  (d, (b + rotl32 f (md5S.getD i 0)) % w32, b, c)

/-- Little-endian byte decomposition of `n` into `k` bytes. -/
def leBytes (n : Nat) : Nat → List Nat
  | 0 => []
  | k + 1 => (n % 256) :: leBytes (n / 256) k

/-- MD5 padding: append `0x80`, zeros to 56 mod 64, then the bit length as
eight little-endian bytes. -/
def md5Pad (msg : List Nat) : List Nat :=
  let L := msg.length
  let k := (119 - (L % 64)) % 64
  msg ++ [0x80] ++ List.replicate k 0 ++ leBytes (8 * L) 8

/-- Split a byte list into 64-byte blocks (fuel-indexed structural recursion;
`l.length` is always enough fuel since every step consumes 64 bytes). -/
def chunks64Aux : Nat → List Nat → List (List Nat)
  | 0, _ => []
  | _, [] => []
  | fuel + 1, l => l.take 64 :: chunks64Aux fuel (l.drop 64)

/-- Split a byte list into 64-byte blocks. -/
def chunks64 (l : List Nat) : List (List Nat) := chunks64Aux l.length l

/-- Word `j` (0–15) of a 64-byte block, little-endian. -/
def blockWord (block : List Nat) (j : Nat) : Nat :=
  block.getD (4 * j) 0 + 256 * block.getD (4 * j + 1) 0 +
    65536 * block.getD (4 * j + 2) 0 + 16777216 * block.getD (4 * j + 3) 0

/-- Process one 64-byte block into the running MD5 state. -/
def md5Block (st : Nat × Nat × Nat × Nat) (block : List Nat) :
    Nat × Nat × Nat × Nat :=
  let (a0, b0, c0, d0) := st
  let r := (List.range 64).foldl (md5Step (blockWord block)) (a0, b0, c0, d0)
  ((a0 + r.1) % w32, (b0 + r.2.1) % w32, (c0 + r.2.2.1) % w32,
    (d0 + r.2.2.2) % w32)

/-- MD5 digest of a byte list, as 16 bytes. -/
def md5Bytes (msg : List Nat) : List Nat :=
  let st := (chunks64 (md5Pad msg)).foldl md5Block
    (0x67452301, 0xefcdab89, 0x98badcfe, 0x10325476)
  leBytes st.1 4 ++ leBytes st.2.1 4 ++ leBytes st.2.2.1 4 ++ leBytes st.2.2.2 4

/-- Lowercase hex digit for `n < 16`. -/
def hexDigit (n : Nat) : Char :=
  if n < 10 then Char.ofNat (48 + n) else Char.ofNat (87 + n)

/-- Two lowercase hex digits of a byte. -/
def byteHex (b : Nat) : List Char := [hexDigit (b / 16), hexDigit (b % 16)]

/-- Lowercase hex string of a byte list. -/
def bytesToHex (l : List Nat) : String := ⟨(l.map byteHex).flatten⟩

/-- UTF-8 encoding of one character (Python `str.encode()`), as bytes. -/
def utf8Char (c : Char) : List Nat :=
  let n := c.toNat
  if n < 0x80 then [n]
  else if n < 0x800 then
    [0xC0 ||| (n >>> 6), 0x80 ||| (n &&& 0x3F)]
  else if n < 0x10000 then
    [0xE0 ||| (n >>> 12), 0x80 ||| ((n >>> 6) &&& 0x3F), 0x80 ||| (n &&& 0x3F)]
  else
    [0xF0 ||| (n >>> 18), 0x80 ||| ((n >>> 12) &&& 0x3F),
     0x80 ||| ((n >>> 6) &&& 0x3F), 0x80 ||| (n &&& 0x3F)]

/-- UTF-8 encoding of a string, as bytes. -/
def utf8Encode (s : String) : List Nat := (s.data.map utf8Char).flatten

/-- `hashlib.md5(s.encode()).hexdigest()`. -/
def md5Hex (s : String) : String := bytesToHex (md5Bytes (utf8Encode s))

/-! ## Data model

`Element` is a matched DOM element as the code observes it: its
`inner_text()` and (for links) its `href` attribute. `Card` is one
observation card, recorded as the answers to the fixed queries
`extract_sighting_data` performs; each field is annotated with the literal
selector or attribute from the source. -/

structure Element where
  innerText : String
  href : Option String
deriving DecidableEq, Repr

structure Card where
  /-- `query_selector(".Heading-main, .species-name, h3, h4")` -/
  speciesElem : Option Element
  /-- `query_selector("em, .scientific-name, .species-scientific")` -/
  scientificElem : Option Element
  /-- `query_selector(".Observation-location, .location, [class*='location']")` -/
  locationElem : Option Element
  /-- `query_selector(".Observation-meta-date, .date, [class*='date']")` -/
  dateElem : Option Element
  /-- `query_selector(".time, [class*='time']")` -/
  timeElem : Option Element
  /-- `query_selector(".Observation-meta-user, .observer, [class*='user']")` -/
  observerElem : Option Element
  /-- `query_selector(".count, [class*='count']")` -/
  countElem : Option Element
  /-- `query_selector(".rare, .notable, .review, [class*='rarity']")` -/
  rarityElem : Option Element
  /-- `query_selector("a[href*='checklist']")` -/
  checklistLink : Option Element
  /-- `get_attribute("data-lat")` -/
  dataLat : Option String
  /-- `get_attribute("data-lng")` -/
  dataLng : Option String
  /-- `query_selector("a[href*='google.com/maps'], a[href*='maps.google']")` -/
  mapLink : Option Element
deriving DecidableEq, Repr

/-- One extracted sighting record, with the exact fields the scraper's
`sighting` dict carries.  All values are strings except the coordinates
(number or `None`) and `checklist_url`, which the code can in principle
leave as Python `None` (see the claim about field types). -/
structure Sighting where
  species_common_name : String
  species_scientific_name : String
  location : String
  date : String
  time : String
  observer : String
  count : String
  rarity_level : String
  checklist_url : Option String
  latitude : Option ℚ
  longitude : Option ℚ
  id : String
deriving DecidableEq, Repr

/-! ## Coordinate parser (`parse_coordinates_from_url`)

The source pattern is `r'[@q=](-?\d+\.\d+),(-?\d+\.\d+)'` — note that
`[@q=]` is a character class matching one of `@`, `q`, `=`.  `re.search`
returns the leftmost match; with this pattern backtracking never changes
the outcome (a digit run can only be shortened to positions whose next
pattern char `.` or `,` can never match a digit), so the search is the
deterministic scan below. -/

/-- Match `\d+\.\d+` at the head, returning the value and the rest. -/
def matchUnsigned (l : List Char) : Option (ℚ × List Char) :=
  let ds := l.takeWhile Char.isDigit
  let r := l.dropWhile Char.isDigit
  if ds.isEmpty then none
  else
    match r with
    | '.' :: r2 =>
        let fs := r2.takeWhile Char.isDigit
        let r3 := r2.dropWhile Char.isDigit
        if fs.isEmpty then none else some (fracVal ds fs, r3)
    | _ => none

/-- Match `-?\d+\.\d+` at the head.  (`-?` needs no backtracking: if `-` is
present but digits do not follow, the variant without `-` would have to match
a digit against `-` and fails as well.) -/
def matchSigned (l : List Char) : Option (ℚ × List Char) :=
  if l.head? = some '-' then (matchUnsigned l.tail).map (fun p => (-p.1, p.2))
  else matchUnsigned l

/-- Match `(-?\d+\.\d+),(-?\d+\.\d+)` at the head, giving the two groups. -/
def matchCoordPair (l : List Char) : Option (ℚ × ℚ) :=
  match matchSigned l with
  | none => none
  | some (a, r) =>
      if r.head? = some ',' then
        match matchSigned r.tail with
        | some (b, _) => some (a, b)
        | none => none
      else none

/-- `re.search` for the full pattern: try each position; a match can only
start at one of the class characters `@`, `q`, `=`. -/
def searchCoords : List Char → Option (ℚ × ℚ)
  | [] => none
  | c :: rest =>
      if c == '@' || c == 'q' || c == '=' then
        match matchCoordPair rest with
        | some p => some p
        | none => searchCoords rest
      else searchCoords rest

/-- `parse_coordinates_from_url(url)`: `None` ⇒ `None` (the `if not url`
guard, which also catches the empty string); otherwise the regex search. -/
def parse_coordinates_from_url : Option String → Option (ℚ × ℚ)
  | none => none
  | some url => if url == "" then none else searchCoords url.data

/-! ## Record extractor (`extract_sighting_data`) -/

/-- `await elem.inner_text() if elem else default` — the pervasive idiom of
`extract_sighting_data`. -/
def textOr (e : Option Element) (dflt : String) : String :=
  match e with
  | some el => el.innerText
  | none => dflt

/-- `float(attr) if attr else None` for a `get_attribute` result.  The outer
`none` models the `ValueError` raised by `float` on an unparseable non-empty
value (caught by the function-level `except`); `some none` is Python `None`. -/
def attrCoord : Option String → Option (Option ℚ)
  | none => some none
  | some s => if s == "" then some none else (pyFloat? s).map some

/-- The coordinate resolution of `extract_sighting_data`: direct
`data-lat`/`data-lng` attributes first; only when the resulting latitude is
`None` is the map link consulted, and a successful URL parse then sets both
coordinates.  `none` models a `float` exception. -/
def resolveCoords (card : Card) : Option (Option ℚ × Option ℚ) :=
  match attrCoord card.dataLat, attrCoord card.dataLng with
  | some lat0, some lng0 =>
      if lat0 = none then
        match card.mapLink with
        | some link =>
            match parse_coordinates_from_url link.href with
            | some (a, b) => some (some a, some b)
            | none => some (lat0, lng0)
        | none => some (lat0, lng0)
      else some (lat0, lng0)
  | _, _ => none

/-- `extract_sighting_data(card)`.  Returns `none` when the body raises (the
only raising step in the pure model is `float` on a malformed coordinate
attribute); otherwise the record, including the derived identifier
`hashlib.md5(id_string.encode()).hexdigest()[:12]` over
`f"{species_common_name}{location}{date}"` (the date already stripped). -/
def extract_sighting_data (card : Card) : Option Sighting :=
  match resolveCoords card with
  | none => none
  | some (lat, lng) =>
      let species := textOr card.speciesElem "Unknown"
      let scientific := textOr card.scientificElem ""
      let location := textOr card.locationElem "Unknown"
      let date := pyStrip (textOr card.dateElem "")
      let time := textOr card.timeElem ""
      let observer := textOr card.observerElem "Unknown"
      let count := textOr card.countElem "1"
      let rarity := pyStrip (pyLower (textOr card.rarityElem "notable"))
      let checklist_url : Option String :=
        match card.checklistLink with
        | some link =>
            match link.href with
            | some h =>
                if (h != "") && !(h.startsWith "http") then
                  some ("https://ebird.org" ++ h)
                else some h
            | none => none
        | none => some ""
      some
        { species_common_name := species
          species_scientific_name := scientific
          location := location
          date := date
          time := time
          observer := observer
          count := count
          rarity_level := rarity
          checklist_url := checklist_url
          latitude := lat
          longitude := lng
          id := (md5Hex (species ++ location ++ date)).take 12 }

/-! ## Record validator (`validate_sighting`) -/

/-- `validate_sighting(sighting)`: `False` for `None`; otherwise every field
in `required = ["species_common_name", "location", "date"]` must be truthy
(non-empty) and distinct from `"Unknown"`. -/
def validate_sighting : Option Sighting → Bool
  | none => false
  | some s =>
      [s.species_common_name, s.location, s.date].all
        (fun v => (v != "") && (v != "Unknown"))

/-! ## Alert scraper (`scrape_alerts`) and run level (`main`)

One attempt of the retry loop touches the page through a fixed sequence of
effectful steps; `AttemptEnv` records how the environment answers them for
that attempt.  The run-level environment is a function from the attempt
index to its `AttemptEnv` (the page may answer differently on a retry). -/

structure AttemptEnv where
  /-- Fault raised by the initial `page.goto` (and, merged into the same
  slot, by nothing else before the redirect check). `none` = no fault. -/
  navFault1 : Option String
  /-- Whether `"login"`/`"signin"` occurs in the post-navigation URL. -/
  redirectedToLogin : Bool
  /-- The boolean result of `login(page)` (that function catches its own
  exceptions and returns `False`). -/
  loginSucceeds : Bool
  /-- Fault raised by the re-navigation `page.goto` after a login. -/
  navFault2 : Option String
  /-- Fault raised by `wait_for_load_state("networkidle")`. -/
  idleFault : Option String
  /-- `none`: `wait_for_selector` for the observation markers timed out
  (the inner `except` path); `some cards`: the cards that
  `query_selector_all` then returns, in page order. -/
  markers : Option (List Card)

/-- The sightings accumulated by the card loop: per card, run
`extract_sighting_data`, keep the result only if it is truthy and
`validate_sighting` accepts it, preserving encounter order. -/
def collectSightings (cards : List Card) : List Sighting :=
  (cards.filterMap extract_sighting_data).filter
    (fun s => validate_sighting (some s))

/-- The body of one attempt of `scrape_alerts` (the `try` block):
`.error m` models an exception with message `m` escaping to the
`except` handler; `.ok` is a `return`. -/
def runAttempt (env : AttemptEnv) : Except String (List Sighting) :=
  match env.navFault1 with
  | some m => .error m
  | none =>
      match
        (if env.redirectedToLogin then
          (if !env.loginSucceeds then some "Login failed" else env.navFault2)
        else none) with
      | some m => .error m
      | none =>
          match env.idleFault with
          | some m => .error m
          | none =>
              match env.markers with
              | none => .ok []
              | some cards => .ok (collectSightings cards)

/-- An observable event of the retry loop: one navigation attempt, or the
fixed `asyncio.sleep(5)` pause between failed attempts. -/
inductive Event where
  | attempt : Event
  | sleep : Event
deriving DecidableEq, Repr

/-- The `for attempt in range(max_retries)` loop of `scrape_alerts`, by
remaining attempt count; advancing an attempt shifts the environment.  On a
fault at the last attempt (`attempt == max_retries - 1`) the fault is
re-raised; otherwise the loop sleeps and retries.  An exhausted `range`
falls through to `return []`. -/
def scrapeLoop (envs : Nat → AttemptEnv) :
    Nat → Except String (List Sighting) × List Event
  | 0 => (.ok [], [])
  | remaining + 1 =>
      match runAttempt (envs 0) with
      | .ok l => (.ok l, [.attempt])
      | .error m =>
          if remaining = 0 then (.error m, [.attempt])
          else
            let r := scrapeLoop (fun i => envs (i + 1)) remaining
            (r.1, .attempt :: .sleep :: r.2)

/-- `scrape_alerts(page, max_retries)`, with the trace of attempt/sleep
events it performs. -/
def scrape_alerts (envs : Nat → AttemptEnv) (maxRetries : Nat) :
    Except String (List Sighting) × List Event :=
  scrapeLoop envs maxRetries

/-- The `metadata` block of the output JSON. -/
structure Metadata where
  location_code : String
  location_name : String
  last_updated : String
  scrape_status : String
  total_sightings : Nat
  error_message : Option String
deriving DecidableEq, Repr

/-- The output envelope written to `birds.json`. -/
structure Output where
  metadata : Metadata
  sightings : List Sighting
deriving DecidableEq, Repr

/-- `create_output_json(sightings, status, error_message)`; `now` stands for
`datetime.now(timezone.utc).isoformat()`. -/
def create_output_json (now : String) (sightings : List Sighting)
    (status : String) (error_message : Option String) : Output :=
  { metadata :=
      { location_code := "SN35466"
        location_name := "eBird Alert Location"
        last_updated := now
        scrape_status := status
        total_sightings := sightings.length
        error_message := error_message }
    sightings := sightings }

/-- Everything `main()` reads from its environment: the two secrets
(`os.environ.get` gives `None` when unset), a fault slot for the session
acquisition steps that sit before the `try` block
(`async_playwright` / `chromium.launch` / `new_context` / `new_page`),
the timestamp, and the per-attempt page behaviour. -/
structure RunConfig where
  username : Option String
  password : Option String
  launchFault : Option String
  now : String
  envs : Nat → AttemptEnv

/-- `main()`: the first component is the JSON file's content (`none` = no
file written), the second the trace of scraping events.  Missing secrets
return before any session or network activity; a session-launch fault
propagates out of `main` before the `try`/`except` that writes the error
envelope; otherwise `scrape_alerts(page)` runs with the default
`max_retries = 3` and some envelope is always written. -/
def pyMain (cfg : RunConfig) : Option Output × List Event :=
  if !strTruthy cfg.username || !strTruthy cfg.password then (none, [])
  else
    match cfg.launchFault with
    | some _ => (none, [])
    | none =>
        let r := scrape_alerts cfg.envs 3
        match r.1 with
        | .error e => (some (create_output_json cfg.now [] "error" (some e)), r.2)
        | .ok sightings =>
            if sightings.isEmpty then
              (some (create_output_json cfg.now [] "warning"
                (some "No sightings found")), r.2)
            else
              (some (create_output_json cfg.now sightings "success" none), r.2)

/-! ## Specification-side predicates for the coordinate parser

These two predicates follow the *words* of the specification and of the
claims, independently of the scanner above, so that the scanner can be
compared against them.  `signedFracB` is the shared grammar of one signed
decimal number with a mandatory fractional part (`-?\d+\.\d+`), matched
against a whole character list. -/

/-- Does `m` consist entirely of one or more digits, a `.`, and one or more
digits? -/
def signedFracCore (m : List Char) : Bool :=
  match m.dropWhile Char.isDigit with
  | '.' :: fs => !(m.takeWhile Char.isDigit).isEmpty &&
      !fs.isEmpty && fs.all Char.isDigit
  | _ => false

/-- Does `l` consist, in its entirety, of an optional `-`, one or more
digits, a `.`, and one or more digits? -/
def signedFracB (l : List Char) : Bool :=
  if l.head? = some '-' then signedFracCore l.tail else signedFracCore l

/-- The claim's wording: the string contains a substring of the form `"@"`
or `"q="` followed by two signed decimal numbers with fractional parts
separated by a comma. -/
def specCoordPattern (s : String) : Prop :=
  ∃ pre marker a b post, s.data = pre ++ (marker ++ (a ++ ',' :: (b ++ post))) ∧
    (marker = ['@'] ∨ marker = ['q', '=']) ∧
    signedFracB a = true ∧ signedFracB b = true

/-- What the source's character class actually requires: a single character
among `@`, `q`, `=` followed by the two numbers. -/
def codeCoordPattern (s : String) : Prop :=
  ∃ pre c a b post, s.data = pre ++ c :: (a ++ ',' :: (b ++ post)) ∧
    (c = '@' ∨ c = 'q' ∨ c = '=') ∧
    signedFracB a = true ∧ signedFracB b = true

/-! ## Concrete sample inputs for the witnesses -/

/-- An element carrying only text. -/
def elemOf (t : String) : Element := { innerText := t, href := none }

/-- A card with species, location and date populated and everything else
unmatched. -/
def sampleCard : Card :=
  { speciesElem := some (elemOf "Robin")
    scientificElem := none
    locationElem := some (elemOf "Central Park")
    dateElem := some (elemOf "2024-05-01")
    timeElem := none
    observerElem := none
    countElem := none
    rarityElem := none
    checklistLink := none
    dataLat := none
    dataLng := none
    mapLink := none }

/-- The record `extract_sighting_data` produces from `sampleCard`
(identifier = `md5("RobinCentral Park2024-05-01")[:12]`). -/
def sampleSighting : Sighting :=
  { species_common_name := "Robin"
    species_scientific_name := ""
    location := "Central Park"
    date := "2024-05-01"
    time := ""
    observer := "Unknown"
    count := "1"
    rarity_level := "notable"
    checklist_url := some ""
    latitude := none
    longitude := none
    id := "bbb346990824" }

/-- Same (species, location, date) triple as `sampleSighting`, every other
field different. -/
def sampleSighting2 : Sighting :=
  { species_common_name := "Robin"
    species_scientific_name := "Turdus migratorius"
    location := "Central Park"
    date := "2024-05-01"
    time := "07:15"
    observer := "Jo Birder"
    count := "4"
    rarity_level := "rare"
    checklist_url := some "https://ebird.org/checklist/S1"
    latitude := some (405 / 10)
    longitude := some (-739 / 10)
    id := "bbb346990824" }

/-- A fully valid card: species, location, date populated. -/
def validCard1 : Card :=
  { speciesElem := some (elemOf "Varied Thrush")
    scientificElem := none
    locationElem := some (elemOf "Golden Gate Park")
    dateElem := some (elemOf "2024-01-02")
    timeElem := none
    observerElem := none
    countElem := none
    rarityElem := none
    checklistLink := none
    dataLat := none
    dataLng := none
    mapLink := none }

/-- A card whose location selector finds nothing, so the sentinel
`"Unknown"` makes the record invalid. -/
def invalidCard : Card :=
  { speciesElem := some (elemOf "Rock Pigeon")
    scientificElem := none
    locationElem := none
    dateElem := some (elemOf "2024-01-02")
    timeElem := none
    observerElem := none
    countElem := none
    rarityElem := none
    checklistLink := none
    dataLat := none
    dataLng := none
    mapLink := none }

/-- A second valid card. -/
def validCard2 : Card :=
  { speciesElem := some (elemOf "Snowy Owl")
    scientificElem := none
    locationElem := some (elemOf "Ocean Beach")
    dateElem := some (elemOf "2024-01-03")
    timeElem := none
    observerElem := none
    countElem := none
    rarityElem := none
    checklistLink := none
    dataLat := none
    dataLng := none
    mapLink := none }

/-- An attempt environment whose page behaves: no faults, no login
redirect, markers found with the given cards. -/
def cleanEnv (cards : List Card) : AttemptEnv :=
  { navFault1 := none
    redirectedToLogin := false
    loginSucceeds := true
    navFault2 := none
    idleFault := none
    markers := some cards }

/-- An attempt environment in which navigation reaches the page but the
content markers never appear (the soft-empty case). -/
def softEmptyEnv : AttemptEnv :=
  { navFault1 := none
    redirectedToLogin := false
    loginSucceeds := true
    navFault2 := none
    idleFault := none
    markers := none }

/-- An attempt environment in which the page redirects to login and the
login attempt fails, raising `Exception("Login failed")`. -/
def loginFailEnv : AttemptEnv :=
  { navFault1 := none
    redirectedToLogin := true
    loginSucceeds := false
    navFault2 := none
    idleFault := none
    markers := none }

/-- An attempt environment whose initial navigation raises. -/
def navFaultEnv (m : String) : AttemptEnv :=
  { navFault1 := some m
    redirectedToLogin := false
    loginSucceeds := true
    navFault2 := none
    idleFault := none
    markers := none }


/-- A card whose species text carries surrounding whitespace. -/
def cardTrim : Card :=
  { speciesElem := some (elemOf " Robin ")
    scientificElem := none
    locationElem := none
    dateElem := none
    timeElem := none
    observerElem := none
    countElem := none
    rarityElem := none
    checklistLink := none
    dataLat := none
    dataLng := none
    mapLink := none }

/-- The record extracted from `cardTrim`
(identifier = `md5(" Robin " + "Unknown" + "")[:12]`). -/
def trimSighting : Sighting :=
  { species_common_name := " Robin "
    species_scientific_name := ""
    location := "Unknown"
    date := ""
    time := ""
    observer := "Unknown"
    count := "1"
    rarity_level := "notable"
    checklist_url := some ""
    latitude := none
    longitude := none
    id := "b8bd64560198" }

/-- A card with both coordinate data attributes present. -/
def cardBothAttrs : Card :=
  { speciesElem := some (elemOf "Merlin")
    scientificElem := none
    locationElem := some (elemOf "Pier 94")
    dateElem := some (elemOf "2024-02-10")
    timeElem := none
    observerElem := none
    countElem := none
    rarityElem := none
    checklistLink := none
    dataLat := some "37.5"
    dataLng := some "-122.25"
    mapLink := none }

/-- A card with only `data-lat` present and no `data-lng`, plus a map link
that would give different coordinates if it were (wrongly) consulted. -/
def cardLatOnly : Card :=
  { speciesElem := some (elemOf "Merlin")
    scientificElem := none
    locationElem := some (elemOf "Pier 94")
    dateElem := some (elemOf "2024-02-10")
    timeElem := none
    observerElem := none
    countElem := none
    rarityElem := none
    checklistLink := none
    dataLat := some "37.5"
    dataLng := none
    mapLink := none }

/-- A map-link element in the `@lat,lng` form. -/
def mapElem : Element :=
  { innerText := "Map"
    href := some "https://maps.google.com/@1.5,-2.5,10z" }

/-- A card with no data attributes but an embedded map link. -/
def cardMapOnly : Card :=
  { speciesElem := some (elemOf "Merlin")
    scientificElem := none
    locationElem := some (elemOf "Pier 94")
    dateElem := some (elemOf "2024-02-10")
    timeElem := none
    observerElem := none
    countElem := none
    rarityElem := none
    checklistLink := none
    dataLat := none
    dataLng := none
    mapLink := some mapElem }

/-- A card with no coordinate source at all. -/
def cardNoCoords : Card :=
  { speciesElem := some (elemOf "Merlin")
    scientificElem := none
    locationElem := none
    dateElem := none
    timeElem := none
    observerElem := none
    countElem := none
    rarityElem := none
    checklistLink := none
    dataLat := none
    dataLng := none
    mapLink := none }

/-- A card exposing a relative checklist link. -/
def cardChecklist : Card :=
  { speciesElem := some (elemOf "Sora")
    scientificElem := none
    locationElem := some (elemOf "Lake Merced")
    dateElem := some (elemOf "2024-03-03")
    timeElem := none
    observerElem := none
    countElem := none
    rarityElem := none
    checklistLink := some { innerText := "View checklist", href := some "/checklist/S123456" }
    dataLat := none
    dataLng := none
    mapLink := none }

/-- The record extracted from `cardChecklist`
(identifier = `md5("SoraLake Merced2024-03-03")[:12]`). -/
def checklistSighting : Sighting :=
  { species_common_name := "Sora"
    species_scientific_name := ""
    location := "Lake Merced"
    date := "2024-03-03"
    time := ""
    observer := "Unknown"
    count := "1"
    rarity_level := "notable"
    checklist_url := some "https://ebird.org/checklist/S123456"
    latitude := none
    longitude := none
    id := "6140867bbbd8" }

/-- A run configuration with the identity secret unset. -/
def cfgNoSecret : RunConfig :=
  { username := none
    password := some "pw"
    launchFault := none
    now := "2024-01-04T00:00:00+00:00"
    envs := fun _ => softEmptyEnv }

/-- A run configuration with secrets present and a well-behaved page that
never shows content markers. -/
def cfgSoft : RunConfig :=
  { username := some "user@example.com"
    password := some "pw"
    launchFault := none
    now := "2024-01-04T00:00:00+00:00"
    envs := fun _ => softEmptyEnv }

/-- A run configuration in which the browser session fails to launch. -/
def cfgLaunchFail : RunConfig :=
  { username := some "user@example.com"
    password := some "pw"
    launchFault := some "browser executable not found"
    now := "2024-01-04T00:00:00+00:00"
    envs := fun _ => softEmptyEnv }

/-- A run configuration whose page yields three cards, one of them invalid. -/
def cfgScenarioB : RunConfig :=
  { username := some "user@example.com"
    password := some "pw"
    launchFault := none
    now := "2024-01-04T00:00:00+00:00"
    envs := fun _ => cleanEnv [validCard1, invalidCard, validCard2] }

/-- A run configuration in which every attempt faults: the first hits a
failed login, the later ones a navigation fault. -/
def cfgAllFail : RunConfig :=
  { username := some "user@example.com"
    password := some "pw"
    launchFault := none
    now := "2024-01-04T00:00:00+00:00"
    envs := fun i => if i = 0 then loginFailEnv else navFaultEnv "net::ERR_TIMED_OUT" }

/-! ## Helper lemmas -/

section Helpers

/-- `takeWhile`/`dropWhile` on a list whose first block satisfies `p` and
whose continuation starts with a `p`-failing element (or is empty) split
exactly at the block boundary. -/
theorem takeWhile_append_exact {p : Char → Bool} :
    ∀ (xs r : List Char), xs.all p = true →
      (match r with | [] => True | y :: _ => p y = false) →
      (xs ++ r).takeWhile p = xs ∧ (xs ++ r).dropWhile p = r := by
  intro xs r hall hr
  induction xs with
  | nil =>
      cases r with
      | nil => simp
      | cons y ys =>
          simp only at hr
          simp [List.takeWhile_cons, List.dropWhile_cons, hr]
  | cons x xs ih =>
      simp only [List.all_cons, Bool.and_eq_true] at hall
      have h := ih hall.2
      simp [List.takeWhile_cons, List.dropWhile_cons, hall.1, h.1, h.2]

/-- A nonempty all-digit list starts with a digit, hence not with `'-'`. -/
theorem head_ne_minus {d : Char} {t : List Char}
    (h : (d :: t).all Char.isDigit = true) : d ≠ '-' := by
  intro hd
  subst hd
  simp only [List.all_cons, Bool.and_eq_true] at h
  exact absurd h.1 (by decide)

/-- Soundness of `matchUnsigned`: a successful match decomposes its input
into `ds . fs` followed by the returned remainder. -/
theorem matchUnsigned_sound {l : List Char} {q : ℚ} {r : List Char}
    (h : matchUnsigned l = some (q, r)) :
    ∃ ds fs, l = (ds ++ '.' :: fs) ++ r ∧ ds ≠ [] ∧ fs ≠ [] ∧
      ds.all Char.isDigit = true ∧ fs.all Char.isDigit = true ∧
      q = fracVal ds fs := by
  unfold matchUnsigned at h
  by_cases hds : (l.takeWhile Char.isDigit).isEmpty
  · simp [hds] at h
  · simp only [hds, Bool.false_eq_true, if_false] at h
    split at h
    case _ r2 heq =>
      by_cases hfs : (r2.takeWhile Char.isDigit).isEmpty
      · simp [hfs] at h
      · simp only [hfs, Bool.false_eq_true, if_false, Option.some.injEq,
          Prod.mk.injEq] at h
        refine ⟨l.takeWhile Char.isDigit, r2.takeWhile Char.isDigit, ?_, ?_, ?_, ?_, ?_, ?_⟩
        · rw [← h.2]
          have h1 : l.takeWhile Char.isDigit ++ l.dropWhile Char.isDigit = l :=
            List.takeWhile_append_dropWhile _ l
          rw [heq] at h1
          have h2 : r2.takeWhile Char.isDigit ++ r2.dropWhile Char.isDigit = r2 :=
            List.takeWhile_append_dropWhile _ r2
          calc l = l.takeWhile Char.isDigit ++ '.' :: r2 := h1.symm
            _ = l.takeWhile Char.isDigit ++ '.' ::
                  (r2.takeWhile Char.isDigit ++ r2.dropWhile Char.isDigit) := by
                rw [h2]
            _ = (l.takeWhile Char.isDigit ++ '.' :: r2.takeWhile Char.isDigit) ++
                  r2.dropWhile Char.isDigit := by simp
        · simpa [List.isEmpty_iff] using hds
        · simpa [List.isEmpty_iff] using hfs
        · exact List.all_takeWhile
        · exact List.all_takeWhile
        · exact h.1.symm
    case _ => exact Option.noConfusion h

end Helpers

section Helpers2

/-- Exact behaviour of `matchUnsigned` on `ds . fs` followed by a remainder
that does not begin with a digit. -/
theorem matchUnsigned_exact {ds fs r : List Char}
    (hds : ds ≠ []) (hfs : fs ≠ [])
    (hda : ds.all Char.isDigit = true) (hfa : fs.all Char.isDigit = true)
    (hr : match r with | [] => True | y :: _ => y.isDigit = false) :
    matchUnsigned ((ds ++ '.' :: fs) ++ r) = some (fracVal ds fs, r) := by
  have hsplit1 := takeWhile_append_exact (p := Char.isDigit) ds ('.' :: (fs ++ r))
    hda rfl
  have hsplit2 := takeWhile_append_exact (p := Char.isDigit) fs r hfa hr
  unfold matchUnsigned
  have harr : (ds ++ '.' :: fs) ++ r = ds ++ '.' :: (fs ++ r) := by simp
  rw [harr, hsplit1.1, hsplit1.2]
  simp only [List.isEmpty_eq_true]
  rw [if_neg hds]
  rw [hsplit2.1, hsplit2.2]
  rw [if_neg hfs]

/-- `matchUnsigned` succeeds on `ds . fs` followed by anything at all (the
greedy digit run may absorb part of the remainder, but a match remains). -/
theorem matchUnsigned_some {ds fs r : List Char}
    (hds : ds ≠ []) (hfs : fs ≠ [])
    (hda : ds.all Char.isDigit = true) (hfa : fs.all Char.isDigit = true) :
    (matchUnsigned ((ds ++ '.' :: fs) ++ r)).isSome = true := by
  have hsplit1 := takeWhile_append_exact (p := Char.isDigit) ds ('.' :: (fs ++ r))
    hda rfl
  unfold matchUnsigned
  have harr : (ds ++ '.' :: fs) ++ r = ds ++ '.' :: (fs ++ r) := by simp
  rw [harr, hsplit1.1, hsplit1.2]
  simp only [List.isEmpty_eq_true]
  rw [if_neg hds]
  have hne : (fs ++ r).takeWhile Char.isDigit ≠ [] := by
    cases fs with
    | nil => exact absurd rfl hfs
    | cons c t =>
        simp only [List.all_cons, Bool.and_eq_true] at hfa
        simp [List.cons_append, List.takeWhile_cons, hfa.1]
  rw [if_neg hne]
  rfl

/-- Soundness of `matchSigned`: a successful match decomposes the input into
a signed decimal followed by the remainder. -/
theorem matchSigned_sound {l : List Char} {q : ℚ} {r : List Char}
    (h : matchSigned l = some (q, r)) :
    ∃ a, l = a ++ r ∧ signedFracB a = true := by
  unfold matchSigned at h
  by_cases hm : l.head? = some '-'
  · rw [if_pos hm] at h
    cases l with
    | nil => simp at hm
    | cons x t =>
        simp only [List.head?_cons, Option.some.injEq] at hm
        subst hm
        simp only [List.tail_cons] at h
        cases hu : matchUnsigned t with
        | none => rw [hu] at h; exact Option.noConfusion h
        | some p =>
            rw [hu] at h
            simp only [Option.map_some', Option.some.injEq] at h
            obtain ⟨ds, fs, hdec, hds, hfs, hda, hfa, hq⟩ :=
              matchUnsigned_sound (l := t) (q := p.1) (r := p.2)
                (by rw [hu])
            have hr2 : p.2 = r := by
              have := congrArg Prod.snd h
              simpa using this
            refine ⟨'-' :: (ds ++ '.' :: fs), ?_, ?_⟩
            · rw [← hr2]
              simp only [List.cons_append, List.cons.injEq]
              exact ⟨trivial, hdec⟩
            · unfold signedFracB
              simp only [List.head?_cons, List.tail_cons, if_pos rfl]
              unfold signedFracCore
              have hsp := takeWhile_append_exact (p := Char.isDigit) ds ('.' :: fs)
                hda rfl
              rw [hsp.2, hsp.1]
              simp [hds, hfs, hfa, List.isEmpty_eq_true]
  · rw [if_neg hm] at h
    obtain ⟨ds, fs, hdec, hds, hfs, hda, hfa, hq⟩ := matchUnsigned_sound h
    refine ⟨ds ++ '.' :: fs, hdec, ?_⟩
    unfold signedFracB
    have hmm : (ds ++ '.' :: fs).head? ≠ some '-' := by
      cases ds with
      | nil => exact absurd rfl hds
      | cons d t =>
          simp only [List.cons_append, List.head?_cons]
          intro hcc
          exact head_ne_minus hda (Option.some.inj hcc)
    rw [if_neg hmm]
    unfold signedFracCore
    have hsp := takeWhile_append_exact (p := Char.isDigit) ds ('.' :: fs)
      hda rfl
    rw [hsp.2, hsp.1]
    simp [hds, hfs, hfa, List.isEmpty_eq_true]

end Helpers2

section Helpers3

/-- Introduction for `signedFracCore` on an exact `ds . fs` decomposition. -/
theorem signedFracCore_of {ds fs : List Char} (hds : ds ≠ []) (hfs : fs ≠ [])
    (hda : ds.all Char.isDigit = true) (hfa : fs.all Char.isDigit = true) :
    signedFracCore (ds ++ '.' :: fs) = true := by
  unfold signedFracCore
  have hsp := takeWhile_append_exact (p := Char.isDigit) ds ('.' :: fs) hda rfl
  rw [hsp.2, hsp.1]
  simp [hds, hfs, hfa, List.isEmpty_eq_true]

/-- Elimination for `signedFracCore`: a passing list is exactly `ds . fs`. -/
theorem signedFracCore_elim {m : List Char} (h : signedFracCore m = true) :
    ∃ ds fs, m = ds ++ '.' :: fs ∧ ds ≠ [] ∧ fs ≠ [] ∧
      ds.all Char.isDigit = true ∧ fs.all Char.isDigit = true := by
  unfold signedFracCore at h
  split at h
  case _ fs heq =>
    simp only [Bool.and_eq_true, Bool.not_eq_true', List.isEmpty_eq_false] at h
    refine ⟨m.takeWhile Char.isDigit, fs, ?_, h.1.1, h.1.2, List.all_takeWhile, h.2⟩
    conv_lhs => rw [← List.takeWhile_append_dropWhile (p := Char.isDigit) (l := m)]
    rw [heq]
  case _ => exact Bool.noConfusion h

/-- Elimination for `signedFracB`: an optional sign then `ds . fs`. -/
theorem signedFracB_elim {a : List Char} (h : signedFracB a = true) :
    ∃ sgn ds fs, a = sgn ++ ds ++ '.' :: fs ∧ (sgn = [] ∨ sgn = ['-']) ∧
      ds ≠ [] ∧ fs ≠ [] ∧ ds.all Char.isDigit = true ∧
      fs.all Char.isDigit = true := by
  unfold signedFracB at h
  by_cases hm : a.head? = some '-'
  · rw [if_pos hm] at h
    cases a with
    | nil => simp at hm
    | cons x t =>
        simp only [List.head?_cons, Option.some.injEq] at hm
        subst hm
        simp only [List.tail_cons] at h
        obtain ⟨ds, fs, hdec, hds, hfs, hda, hfa⟩ := signedFracCore_elim h
        exact ⟨['-'], ds, fs, by simp [hdec], Or.inr rfl, hds, hfs, hda, hfa⟩
  · rw [if_neg hm] at h
    obtain ⟨ds, fs, hdec, hds, hfs, hda, hfa⟩ := signedFracCore_elim h
    exact ⟨[], ds, fs, by simp [hdec], Or.inl rfl, hds, hfs, hda, hfa⟩

/-- A signed decimal followed by a non-digit-headed remainder matches with
exactly that remainder left over. -/
theorem matchSigned_exact {a r : List Char} (ha : signedFracB a = true)
    (hr : match r with | [] => True | y :: _ => y.isDigit = false) :
    ∃ v, matchSigned (a ++ r) = some (v, r) := by
  obtain ⟨sgn, ds, fs, hdec, hsgn, hds, hfs, hda, hfa⟩ := signedFracB_elim ha
  rcases hsgn with hs | hs
  · subst hs
    simp only [List.nil_append] at hdec
    subst hdec
    unfold matchSigned
    have hmm : ((ds ++ '.' :: fs) ++ r).head? ≠ some '-' := by
      cases ds with
      | nil => exact absurd rfl hds
      | cons d t =>
          simp only [List.cons_append, List.head?_cons]
          intro hcc
          exact head_ne_minus hda (Option.some.inj hcc)
    rw [if_neg hmm]
    exact ⟨fracVal ds fs, matchUnsigned_exact hds hfs hda hfa hr⟩
  · subst hs
    subst hdec
    refine ⟨-(fracVal ds fs), ?_⟩
    show matchSigned (('-' :: (ds ++ '.' :: fs)) ++ r) = _
    unfold matchSigned
    rw [List.cons_append, if_pos (by simp), List.tail_cons]
    rw [matchUnsigned_exact hds hfs hda hfa hr]
    rfl

/-- A signed decimal followed by an arbitrary remainder still matches. -/
theorem matchSigned_some {a r : List Char} (ha : signedFracB a = true) :
    (matchSigned (a ++ r)).isSome = true := by
  obtain ⟨sgn, ds, fs, hdec, hsgn, hds, hfs, hda, hfa⟩ := signedFracB_elim ha
  rcases hsgn with hs | hs
  · subst hs
    simp only [List.nil_append] at hdec
    subst hdec
    unfold matchSigned
    have hmm : ((ds ++ '.' :: fs) ++ r).head? ≠ some '-' := by
      cases ds with
      | nil => exact absurd rfl hds
      | cons d t =>
          simp only [List.cons_append, List.head?_cons]
          intro hcc
          exact head_ne_minus hda (Option.some.inj hcc)
    rw [if_neg hmm]
    exact matchUnsigned_some hds hfs hda hfa
  · subst hs
    subst hdec
    show (matchSigned (('-' :: (ds ++ '.' :: fs)) ++ r)).isSome = true
    unfold matchSigned
    rw [List.cons_append, if_pos (by simp), List.tail_cons]
    have := matchUnsigned_some (r := r) hds hfs hda hfa
    cases hu : matchUnsigned ((ds ++ '.' :: fs) ++ r) with
    | none => rw [hu] at this; exact Bool.noConfusion this
    | some p => simp

end Helpers3



section Helpers4

/-- Completeness for the two-number pattern: `a , b` (then anything)
always yields a match of `matchCoordPair`. -/
theorem matchCoordPair_some {a b post : List Char}
    (ha : signedFracB a = true) (hb : signedFracB b = true) :
    (matchCoordPair (a ++ ',' :: (b ++ post))).isSome = true := by
  obtain ⟨v, hv⟩ := matchSigned_exact (r := ',' :: (b ++ post)) ha rfl
  unfold matchCoordPair
  rw [hv]
  have hbs := matchSigned_some (r := post) hb
  cases hms : matchSigned (b ++ post) with
  | none => rw [hms] at hbs; exact Bool.noConfusion hbs
  | some p => simp [hms]

/-- Soundness for `matchCoordPair`: a match decomposes the input as
`a , b post` with both groups signed decimals. -/
theorem matchCoordPair_sound {l : List Char} {p : ℚ × ℚ}
    (h : matchCoordPair l = some p) :
    ∃ a b post, l = a ++ ',' :: (b ++ post) ∧
      signedFracB a = true ∧ signedFracB b = true := by
  unfold matchCoordPair at h
  split at h
  case _ => exact Option.noConfusion h
  case _ v r hms =>
    split at h
    case _ hr =>
      split at h
      case _ w rest hms2 =>
        obtain ⟨a, hdeca, ha⟩ := matchSigned_sound hms
        obtain ⟨b, hdecb, hb⟩ := matchSigned_sound hms2
        cases r with
        | nil => simp at hr
        | cons y r2 =>
            simp only [List.head?_cons, Option.some.injEq] at hr
            subst hr
            simp only [List.tail_cons] at hdecb
            exact ⟨a, b, rest, by rw [hdeca, hdecb], ha, hb⟩
      case _ => exact Option.noConfusion h
    case _ => exact Option.noConfusion h

end Helpers4

section Helpers5

/-- The scanner `searchCoords` succeeds exactly on lists containing a class
character `@`/`q`/`=` followed by the two-number pattern. -/
theorem searchCoords_isSome_iff (l : List Char) :
    (searchCoords l).isSome = true ↔
      ∃ pre c a b post, l = pre ++ c :: (a ++ ',' :: (b ++ post)) ∧
        (c = '@' ∨ c = 'q' ∨ c = '=') ∧
        signedFracB a = true ∧ signedFracB b = true := by
  induction l with
  | nil =>
      simp only [searchCoords, Option.isSome_none, Bool.false_eq_true, false_iff]
      rintro ⟨pre, c, a, b, post, heq, -, -, -⟩
      exact absurd heq (by simp)
  | cons x t ih =>
      constructor
      · intro h
        unfold searchCoords at h
        by_cases hx : (x == '@' || x == 'q' || x == '=') = true
        · rw [if_pos hx] at h
          split at h
          case _ p hm =>
              obtain ⟨a, b, post, hdec, ha, hb⟩ := matchCoordPair_sound hm
              refine ⟨[], x, a, b, post, by rw [hdec]; rfl, ?_, ha, hb⟩
              have hx2 := hx
              simp only [Bool.or_eq_true, beq_iff_eq] at hx2
              tauto
          case _ hm =>
              obtain ⟨pre, c, a, b, post, hdec, hc, ha, hb⟩ := ih.mp h
              exact ⟨x :: pre, c, a, b, post, by rw [hdec]; rfl, hc, ha, hb⟩
        · rw [if_neg hx] at h
          obtain ⟨pre, c, a, b, post, hdec, hc, ha, hb⟩ := ih.mp h
          exact ⟨x :: pre, c, a, b, post, by rw [hdec]; rfl, hc, ha, hb⟩
      · rintro ⟨pre, c, a, b, post, hdec, hc, ha, hb⟩
        cases pre with
        | nil =>
            simp only [List.nil_append, List.cons.injEq] at hdec
            obtain ⟨hxc, ht⟩ := hdec
            unfold searchCoords
            have hx : (x == '@' || x == 'q' || x == '=') = true := by
              subst hxc
              rcases hc with h1 | h1 | h1 <;> subst h1 <;> rfl
            rw [if_pos hx]
            have hm2 : (matchCoordPair t).isSome = true := by
              rw [ht]; exact matchCoordPair_some ha hb
            cases hm : matchCoordPair t with
            | none => rw [hm] at hm2; exact Bool.noConfusion hm2
            | some p => simp [hm]
        | cons y pre2 =>
            simp only [List.cons_append, List.cons.injEq] at hdec
            obtain ⟨hxy, ht⟩ := hdec
            have hts : (searchCoords t).isSome = true :=
              ih.mpr ⟨pre2, c, a, b, post, ht, hc, ha, hb⟩
            unfold searchCoords
            by_cases hx : (x == '@' || x == 'q' || x == '=') = true
            · rw [if_pos hx]
              cases hm : matchCoordPair t with
              | none => simp [hm, hts]
              | some p => simp [hm]
            · rw [if_neg hx]
              exact hts

end Helpers5

section Helpers6

/-- The full shape of a successful extraction, given that coordinate
resolution did not raise. -/
theorem extract_eq_of_resolve {card : Card} {lat lng : Option ℚ}
    (h : resolveCoords card = some (lat, lng)) :
    extract_sighting_data card = some
      { species_common_name := textOr card.speciesElem "Unknown"
        species_scientific_name := textOr card.scientificElem ""
        location := textOr card.locationElem "Unknown"
        date := pyStrip (textOr card.dateElem "")
        time := textOr card.timeElem ""
        observer := textOr card.observerElem "Unknown"
        count := textOr card.countElem "1"
        rarity_level := pyStrip (pyLower (textOr card.rarityElem "notable"))
        checklist_url :=
          match card.checklistLink with
          | some link =>
              match link.href with
              | some h2 =>
                  if (h2 != "") && !(h2.startsWith "http") then
                    some ("https://ebird.org" ++ h2)
                  else some h2
              | none => none
          | none => some ""
        latitude := lat
        longitude := lng
        id := (md5Hex (textOr card.speciesElem "Unknown" ++
          textOr card.locationElem "Unknown" ++
          pyStrip (textOr card.dateElem ""))).take 12 } := by
  unfold extract_sighting_data
  rw [h]

/-- The derived identifier of any successfully extracted record is the
12-character MD5 prefix over the record's own (species, location, date). -/
theorem extract_id_eq {card : Card} {s : Sighting}
    (h : extract_sighting_data card = some s) :
    s.id = (md5Hex (s.species_common_name ++ s.location ++ s.date)).take 12 := by
  unfold extract_sighting_data at h
  split at h
  · exact Option.noConfusion h
  case _ lat lng =>
    simp only [Option.some.injEq] at h
    subst h
    with_reducible rfl

end Helpers6

section Helpers7

/-- Direct data attributes resolve the coordinates when `data-lat` parses. -/
theorem resolveCoords_direct {card : Card} {q : ℚ} {lngv : Option ℚ}
    (hlat : attrCoord card.dataLat = some (some q))
    (hlng : attrCoord card.dataLng = some lngv) :
    resolveCoords card = some (some q, lngv) := by
  unfold resolveCoords
  rw [hlat, hlng]
  simp

/-- With an unresolved `data-lat`, a parseable map link sets both
coordinates. -/
theorem resolveCoords_fallback {card : Card} {link : Element} {a b : ℚ}
    {lngv : Option ℚ}
    (hlat : attrCoord card.dataLat = some none)
    (hlng : attrCoord card.dataLng = some lngv)
    (hml : card.mapLink = some link)
    (hp : parse_coordinates_from_url link.href = some (a, b)) :
    resolveCoords card = some (some a, some b) := by
  unfold resolveCoords
  rw [hlat, hlng]
  simp [hml, hp]

/-- With an unresolved `data-lat`, an unresolved `data-lng` and no usable
map link, both coordinates stay `None`. -/
theorem resolveCoords_none {card : Card}
    (hlat : attrCoord card.dataLat = some none)
    (hlng : attrCoord card.dataLng = some none)
    (hml : card.mapLink = none ∨ ∃ link, card.mapLink = some link ∧
      parse_coordinates_from_url link.href = none) :
    resolveCoords card = some (none, none) := by
  unfold resolveCoords
  rw [hlat, hlng]
  rcases hml with h | ⟨link, hl, hp⟩
  · simp [h]
  · simp [hl, hp]

/-- When `data-lat` resolves, the extraction result does not depend on the
map link at all. -/
theorem extract_mapLink_irrelevant {card : Card} {q : ℚ} {lngv : Option ℚ}
    (hlat : attrCoord card.dataLat = some (some q))
    (hlng : attrCoord card.dataLng = some lngv) (ml : Option Element) :
    extract_sighting_data { card with mapLink := ml } =
      extract_sighting_data card := by
  have h1 : resolveCoords { card with mapLink := ml } = some (some q, lngv) :=
    resolveCoords_direct hlat hlng
  have h2 : resolveCoords card = some (some q, lngv) :=
    resolveCoords_direct hlat hlng
  rw [extract_eq_of_resolve h1, extract_eq_of_resolve h2]

end Helpers7

section Helpers8

/-- The retry loop performs at most `n` navigation attempts. -/
theorem scrapeLoop_attempt_count (envs : Nat → AttemptEnv) :
    ∀ n, ((scrapeLoop envs n).2.count Event.attempt) ≤ n := by
  intro n
  induction n generalizing envs with
  | zero => simp [scrapeLoop]
  | succ k ih =>
      unfold scrapeLoop
      cases runAttempt (envs 0) with
      | ok l => simp [List.count_cons]
      | error m =>
          dsimp only
          by_cases hk : k = 0
          · subst hk; simp [List.count_cons]
          · rw [if_neg hk]
            have h := ih (fun i => envs (i + 1))
            simp only [List.count_cons,
              show (if (Event.sleep == Event.attempt) = true then 1 else 0) = 0
                from rfl,
              show (if (Event.attempt == Event.attempt) = true then 1 else 0) = 1
                from rfl]
            omega

/-- An attempt that returns normally ends the loop after one attempt. -/
theorem scrape_ok_first (envs : Nat → AttemptEnv) (l : List Sighting)
    (h : runAttempt (envs 0) = .ok l) :
    scrape_alerts envs 3 = (.ok l, [Event.attempt]) := by
  unfold scrape_alerts scrapeLoop
  rw [h]

/-- Three faulting attempts: the loop sleeps between attempts, makes exactly
three of them, and re-raises the last fault. -/
theorem scrape_all_fail (envs : Nat → AttemptEnv) (m0 m1 m2 : String)
    (h0 : runAttempt (envs 0) = .error m0)
    (h1 : runAttempt (envs 1) = .error m1)
    (h2 : runAttempt (envs 2) = .error m2) :
    scrape_alerts envs 3 = (.error m2,
      [Event.attempt, Event.sleep, Event.attempt, Event.sleep, Event.attempt]) := by
  simp [scrape_alerts, scrapeLoop, h0, h1, h2]

/-- The per-card accumulation, reformulated card by card: each card
contributes its extracted record exactly when that record validates. -/
theorem collectSightings_eq_filterMap (cards : List Card) :
    collectSightings cards = cards.filterMap (fun c =>
      match extract_sighting_data c with
      | some s => if validate_sighting (some s) then some s else none
      | none => none) := by
  induction cards with
  | nil => rfl
  | cons c cs ih =>
      unfold collectSightings at ih ⊢
      rw [List.filterMap_cons, List.filterMap_cons]
      cases h : extract_sighting_data c with
      | none => exact ih
      | some s =>
          by_cases hv : validate_sighting (some s) = true
          · simp only [hv, if_true, List.filter_cons, ih]
          · simp only [hv, if_false, List.filter_cons, ih]
            simp [hv]

end Helpers8

/-! ## RFC 1321 test vectors, as a sanity check on the hash embedding -/

theorem md5Hex_empty : md5Hex "" = "d41d8cd98f00b204e9800998ecf8427e" := by
  decide

theorem md5Hex_abc : md5Hex "abc" = "900150983cd24fb0d6963f7d28e17f72" := by
  decide

/-! ## Claim theorems -/

/-- C1: for every extracted record, the derived identifier equals the first
12 hex characters of the MD5 digest of the concatenation of species common
name, location, and raw date string; hence two records with identical
(common name, location, date) triples carry equal identifiers. -/
theorem c1_identifier_md5 :
    (∀ card s, extract_sighting_data card = some s →
       s.id = (md5Hex (s.species_common_name ++ s.location ++ s.date)).take 12) ∧
    (∀ c1 c2 s1 s2, extract_sighting_data c1 = some s1 →
       extract_sighting_data c2 = some s2 →
       s1.species_common_name = s2.species_common_name →
       s1.location = s2.location → s1.date = s2.date → s1.id = s2.id) := by
  refine ⟨fun card s h => extract_id_eq h, ?_⟩
  intro c1 c2 s1 s2 h1 h2 e1 e2 e3
  rw [extract_id_eq h1, extract_id_eq h2, e1, e2, e3]

set_option maxRecDepth 10000 in
/-- Witness for C1: the record extracted from `sampleCard` satisfies the
identifier derivation. -/
theorem c1_identifier_md5_witness :
    sampleSighting.id = (md5Hex (sampleSighting.species_common_name ++
      sampleSighting.location ++ sampleSighting.date)).take 12 :=
  c1_identifier_md5.1 sampleCard sampleSighting (by rfl)

/-- C2: the validator accepts a candidate if and only if it is present and
each of species common name, location and date is non-empty and not the
sentinel `"Unknown"`; no other field influences the decision. -/
theorem c2_validator_characterization :
    (∀ cand : Option Sighting,
       validate_sighting cand = true ↔
         ∃ s, cand = some s ∧
           s.species_common_name ≠ "" ∧ s.species_common_name ≠ "Unknown" ∧
           s.location ≠ "" ∧ s.location ≠ "Unknown" ∧
           s.date ≠ "" ∧ s.date ≠ "Unknown") ∧
    (∀ s t : Sighting, s.species_common_name = t.species_common_name →
       s.location = t.location → s.date = t.date →
       validate_sighting (some s) = validate_sighting (some t)) := by
  constructor
  · intro cand
    cases cand with
    | none => simp [validate_sighting]
    | some s =>
        simp only [validate_sighting, List.all_cons, List.all_nil,
          Bool.and_eq_true, bne_iff_ne, Option.some.injEq]
        constructor
        · rintro ⟨⟨h1, h2⟩, ⟨h3, h4⟩, ⟨h5, h6⟩, -⟩
          exact ⟨s, rfl, h1, h2, h3, h4, h5, h6⟩
        · rintro ⟨t, rfl, h1, h2, h3, h4, h5, h6⟩
          exact ⟨⟨h1, h2⟩, ⟨h3, h4⟩, ⟨h5, h6⟩, trivial⟩
  · intro s t e1 e2 e3
    simp [validate_sighting, e1, e2, e3]

/-- Witness for C2: two records sharing the required triple but differing
everywhere else get the same verdict. -/
theorem c2_validator_characterization_witness :
    validate_sighting (some sampleSighting) =
      validate_sighting (some sampleSighting2) :=
  c2_validator_characterization.2 sampleSighting sampleSighting2 rfl rfl rfl

set_option maxRecDepth 10000 in
/-- Counterexample to C4 as stated: the species text of `cardTrim` is
`" Robin "`; the extractor stores it verbatim, not whitespace-trimmed —
trimming would have produced `"Robin"`. -/
theorem c4_counterexample :
    (extract_sighting_data cardTrim).map Sighting.species_common_name =
      some " Robin " ∧ pyStrip " Robin " ≠ " Robin " := by
  exact ⟨by rfl, by decide⟩

/-- C4 (amended): for each textual field the extractor takes the first
matching element's text content verbatim — only the date is trimmed, and
only the rarity level is lower-cased and trimmed — and when no selector
matches it uses the documented default: `"Unknown"` for species common name,
location and observer, `""` for scientific name, time (and date), `"1"` for
count, and `"notable"` for rarity level. -/
theorem c4_field_extraction :
    ∀ card s, extract_sighting_data card = some s →
      s.species_common_name = textOr card.speciesElem "Unknown" ∧
      s.species_scientific_name = textOr card.scientificElem "" ∧
      s.location = textOr card.locationElem "Unknown" ∧
      s.date = pyStrip (textOr card.dateElem "") ∧
      s.time = textOr card.timeElem "" ∧
      s.observer = textOr card.observerElem "Unknown" ∧
      s.count = textOr card.countElem "1" ∧
      s.rarity_level = pyStrip (pyLower (textOr card.rarityElem "notable")) := by
  intro card s h
  unfold extract_sighting_data at h
  split at h
  · exact Option.noConfusion h
  case _ lat lng =>
    simp only [Option.some.injEq] at h
    subst h
    exact ⟨rfl, rfl, rfl, rfl, rfl, rfl, rfl, rfl⟩

set_option maxRecDepth 10000 in
/-- Witness for C4 (amended) at `cardTrim`: the species text is stored
verbatim and the unmatched location falls back to its documented default. -/
theorem c4_field_extraction_witness :
    trimSighting.species_common_name = textOr cardTrim.speciesElem "Unknown" ∧
    trimSighting.location = textOr cardTrim.locationElem "Unknown" := by
  have h := c4_field_extraction cardTrim trimSighting (by rfl)
  exact ⟨h.1, h.2.2.1⟩

/-- C5: latitude and longitude come first from the card's direct data
attributes; only when the direct latitude is unresolved is the embedded
map-link URL parsed, and if neither source yields a match both coordinates
are null — never a default of (0, 0). -/
theorem c5_coordinate_priority :
    (∀ card (q : ℚ) (lngv : Option ℚ),
       attrCoord card.dataLat = some (some q) →
       attrCoord card.dataLng = some lngv →
       (extract_sighting_data card).map Sighting.latitude = some (some q) ∧
       (extract_sighting_data card).map Sighting.longitude = some lngv ∧
       ∀ ml, extract_sighting_data { card with mapLink := ml } =
         extract_sighting_data card) ∧
    (∀ card link (a b : ℚ) (lngv : Option ℚ),
       attrCoord card.dataLat = some none →
       attrCoord card.dataLng = some lngv →
       card.mapLink = some link →
       parse_coordinates_from_url link.href = some (a, b) →
       (extract_sighting_data card).map Sighting.latitude = some (some a) ∧
       (extract_sighting_data card).map Sighting.longitude = some (some b)) ∧
    (∀ card, attrCoord card.dataLat = some none →
       attrCoord card.dataLng = some none →
       (card.mapLink = none ∨ ∃ link, card.mapLink = some link ∧
          parse_coordinates_from_url link.href = none) →
       (extract_sighting_data card).map Sighting.latitude = some none ∧
       (extract_sighting_data card).map Sighting.longitude = some none) := by
  refine ⟨?_, ?_, ?_⟩
  · intro card q lngv hlat hlng
    have hrc := resolveCoords_direct hlat hlng
    refine ⟨?_, ?_, fun ml => extract_mapLink_irrelevant hlat hlng ml⟩
    · rw [extract_eq_of_resolve hrc]; rfl
    · rw [extract_eq_of_resolve hrc]; rfl
  · intro card link a b lngv hlat hlng hml hp
    have hrc := resolveCoords_fallback hlat hlng hml hp
    constructor
    · rw [extract_eq_of_resolve hrc]; rfl
    · rw [extract_eq_of_resolve hrc]; rfl
  · intro card hlat hlng hml
    have hrc := resolveCoords_none hlat hlng hml
    constructor
    · rw [extract_eq_of_resolve hrc]; rfl
    · rw [extract_eq_of_resolve hrc]; rfl

set_option maxRecDepth 10000 in
/-- Witness for C5: on `cardBothAttrs` the direct attributes win and the map
link is irrelevant; on `cardMapOnly` the map link supplies both coordinates;
on `cardNoCoords` both stay null. -/
theorem c5_coordinate_priority_witness :
    ((extract_sighting_data cardBothAttrs).map Sighting.latitude =
        some (some (75 / 2)) ∧
      extract_sighting_data { cardBothAttrs with mapLink := some mapElem } =
        extract_sighting_data cardBothAttrs) ∧
    (extract_sighting_data cardMapOnly).map Sighting.latitude =
        some (some (3 / 2)) ∧
    (extract_sighting_data cardNoCoords).map Sighting.latitude = some none := by
  have h1 := c5_coordinate_priority.1 cardBothAttrs (75 / 2) (some (-489 / 4))
    (by with_unfolding_all rfl) (by with_unfolding_all rfl)
  have h2 := c5_coordinate_priority.2.1 cardMapOnly mapElem (3 / 2) (-5 / 2)
    none (by decide) (by decide) rfl (by with_unfolding_all rfl)
  have h3 := c5_coordinate_priority.2.2 cardNoCoords (by decide) (by decide)
    (Or.inl rfl)
  exact ⟨⟨h1.1, h1.2.2 (some mapElem)⟩, h2.1, h3.1⟩

/-- C10: when the `data-lat` attribute is present and parseable but
`data-lng` is absent, the extractor keeps latitude numeric and longitude
null, and never consults the embedded map link. -/
theorem c10_lat_without_lng :
    ∀ card ls (q : ℚ), card.dataLat = some ls → ls ≠ "" →
      pyFloat? ls = some q → card.dataLng = none →
      (extract_sighting_data card).map Sighting.latitude = some (some q) ∧
      (extract_sighting_data card).map Sighting.longitude = some none ∧
      ∀ ml, extract_sighting_data { card with mapLink := ml } =
        extract_sighting_data card := by
  intro card ls q hls hne hq hlng
  have hlat : attrCoord card.dataLat = some (some q) := by
    rw [hls]
    show (if (ls == "") = true then some none else Option.map some (pyFloat? ls)) =
      some (some q)
    rw [if_neg (by simp [hne]), hq]
    rfl
  have hlng2 : attrCoord card.dataLng = some none := by rw [hlng]; rfl
  have hrc := resolveCoords_direct hlat hlng2
  refine ⟨?_, ?_, fun ml => extract_mapLink_irrelevant hlat hlng2 ml⟩
  · rw [extract_eq_of_resolve hrc]; rfl
  · rw [extract_eq_of_resolve hrc]; rfl

set_option maxRecDepth 10000 in
/-- Witness for C10 at `cardLatOnly`, including irrelevance of an added map
link that would give different coordinates. -/
theorem c10_lat_without_lng_witness :
    (extract_sighting_data cardLatOnly).map Sighting.latitude =
      some (some (75 / 2)) ∧
    (extract_sighting_data cardLatOnly).map Sighting.longitude = some none ∧
    extract_sighting_data { cardLatOnly with mapLink := some mapElem } =
      extract_sighting_data cardLatOnly := by
  have h := c10_lat_without_lng cardLatOnly "37.5" (75 / 2) rfl (by decide)
    (by with_unfolding_all rfl) rfl
  exact ⟨h.1, h.2.1, h.2.2 (some mapElem)⟩

/-- C9: under the CSS attribute-selector guarantee — an element matched by
`a[href*='checklist']` has an `href` attribute — every extracted record's
`checklist_url` is a string (never Python `None`); all other non-coordinate
fields are strings by construction of `Sighting`, and latitude/longitude
are number-or-null by type. -/
theorem c9_checklist_url_always_string :
    ∀ card s, (∀ el, card.checklistLink = some el → el.href ≠ none) →
      extract_sighting_data card = some s → s.checklist_url ≠ none := by
  intro card s hcons h
  unfold extract_sighting_data at h
  split at h
  · exact Option.noConfusion h
  case _ lat lng =>
    simp only [Option.some.injEq] at h
    subst h
    cases hcl : card.checklistLink with
    | none => simp [hcl]
    | some link =>
        cases hh : link.href with
        | none => exact absurd hh (hcons link hcl)
        | some u =>
            simp only [hcl, hh]
            split <;> simp

set_option maxRecDepth 10000 in
/-- Witness for C9 at `cardChecklist`, whose relative link is rewritten to
an absolute URL. -/
theorem c9_checklist_url_always_string_witness :
    checklistSighting.checklist_url ≠ none := by
  refine c9_checklist_url_always_string cardChecklist checklistSighting
    ?_ (by with_unfolding_all decide)
  intro el h
  have h2 := Option.some.inj h
  subst h2
  decide

/-- C6: the scraper makes at most 3 attempts; a navigation or login fault is
retried after the fixed pause; after the final failed attempt the last fault
propagates, and the top level then produces an "error" envelope carrying the
fault's description; a markers-timeout instead makes the attempt return an
empty result — no fault — and is therefore never retried. -/
theorem c6_retry_policy :
    (∀ envs : Nat → AttemptEnv,
       (scrape_alerts envs 3).2.count Event.attempt ≤ 3) ∧
    (∀ envs m0 m1 m2, runAttempt (envs 0) = .error m0 →
       runAttempt (envs 1) = .error m1 → runAttempt (envs 2) = .error m2 →
       scrape_alerts envs 3 = (.error m2,
         [Event.attempt, Event.sleep, Event.attempt, Event.sleep,
          Event.attempt])) ∧
    (∀ cfg m0 m1 m2, strTruthy cfg.username = true →
       strTruthy cfg.password = true → cfg.launchFault = none →
       runAttempt (cfg.envs 0) = .error m0 →
       runAttempt (cfg.envs 1) = .error m1 →
       runAttempt (cfg.envs 2) = .error m2 →
       (pyMain cfg).1 = some (create_output_json cfg.now [] "error" (some m2))) ∧
    (∀ envs : Nat → AttemptEnv, (envs 0).navFault1 = none →
       (envs 0).redirectedToLogin = false → (envs 0).idleFault = none →
       (envs 0).markers = none →
       runAttempt (envs 0) = .ok [] ∧
       scrape_alerts envs 3 = (.ok [], [Event.attempt])) := by
  refine ⟨fun envs => scrapeLoop_attempt_count envs 3,
    fun envs m0 m1 m2 h0 h1 h2 => scrape_all_fail envs m0 m1 m2 h0 h1 h2,
    ?_, ?_⟩
  · intro cfg m0 m1 m2 hu hp hl h0 h1 h2
    have hs := scrape_all_fail cfg.envs m0 m1 m2 h0 h1 h2
    unfold pyMain
    rw [hu, hp, hl]
    simp [hs]
  · intro envs h1 h2 h3 h4
    have hra : runAttempt (envs 0) = .ok [] := by
      unfold runAttempt
      rw [h1, h2, h3, h4]
      rfl
    exact ⟨hra, scrape_ok_first envs [] hra⟩

/-- Witness for C6: a run whose three attempts fail (login, then two
navigation faults) yields the error envelope with the last fault; a run
whose first attempt finds no markers ends after one attempt with an empty
result. -/
theorem c6_retry_policy_witness :
    (pyMain cfgAllFail).1 =
      some (create_output_json cfgAllFail.now [] "error"
        (some "net::ERR_TIMED_OUT")) ∧
    scrape_alerts cfgSoft.envs 3 = (.ok [], [Event.attempt]) := by
  constructor
  · exact c6_retry_policy.2.2.1 cfgAllFail "Login failed" "net::ERR_TIMED_OUT"
      "net::ERR_TIMED_OUT" rfl rfl rfl rfl rfl rfl
  · exact (c6_retry_policy.2.2.2 cfgSoft.envs rfl rfl rfl rfl).2

/-- C7: when the scrape completes without fault on the first attempt with a
given card list, the envelope is written; with zero valid sightings it is a
"warning" with total 0, the fixed non-null message, and an empty array;
otherwise a "success" whose array is exactly the valid sightings in
encounter order (per-card: a card contributes its extracted record exactly
when the record validates) and whose total is their number. -/
theorem c7_envelope_contents :
    ∀ cfg cards, strTruthy cfg.username = true →
      strTruthy cfg.password = true → cfg.launchFault = none →
      cfg.envs 0 = cleanEnv cards →
      (pyMain cfg).1 = some (create_output_json cfg.now
        (collectSightings cards)
        (if collectSightings cards = [] then "warning" else "success")
        (if collectSightings cards = [] then some "No sightings found"
          else none)) ∧
      collectSightings cards = cards.filterMap (fun c =>
        match extract_sighting_data c with
        | some s => if validate_sighting (some s) then some s else none
        | none => none) := by
  intro cfg cards hu hp hl he
  have hra : runAttempt (cfg.envs 0) = .ok (collectSightings cards) := by
    rw [he]
    unfold runAttempt cleanEnv
    rfl
  have hs := scrape_ok_first cfg.envs (collectSightings cards) hra
  refine ⟨?_, collectSightings_eq_filterMap cards⟩
  unfold pyMain
  rw [hu, hp, hl]
  by_cases hc : collectSightings cards = []
  · simp [hs, hc]
  · simp [hs, hc, List.isEmpty_iff]

set_option maxRecDepth 10000 in
/-- Witness for C7: three cards, the middle one lacking a location, give a
"success" envelope with the two valid sightings. -/
theorem c7_envelope_contents_witness :
    (pyMain cfgScenarioB).1 = some (create_output_json cfgScenarioB.now
      (collectSightings [validCard1, invalidCard, validCard2])
      (if collectSightings [validCard1, invalidCard, validCard2] = []
        then "warning" else "success")
      (if collectSightings [validCard1, invalidCard, validCard2] = []
        then some "No sightings found" else none)) ∧
    (collectSightings [validCard1, invalidCard, validCard2]).length = 2 := by
  constructor
  · exact (c7_envelope_contents cfgScenarioB
      [validCard1, invalidCard, validCard2] rfl rfl rfl rfl).1
  · decide

/-- C8 (amended): unset or empty secrets abort the run before any session
or network activity and no output file is written; whenever the secrets are
present and the browser session launches, an output file is always written —
so the file is absent only on the configuration fault or on a session-launch
fault (the launch steps sit outside the `try` that writes the error
envelope). -/
theorem c8_missing_secrets :
    (∀ cfg, (strTruthy cfg.username = false ∨ strTruthy cfg.password = false) →
       pyMain cfg = (none, [])) ∧
    (∀ cfg, strTruthy cfg.username = true → strTruthy cfg.password = true →
       cfg.launchFault = none → ((pyMain cfg).1).isSome = true) := by
  constructor
  · intro cfg h
    unfold pyMain
    rcases h with h | h <;> simp [h]
  · intro cfg hu hp hl
    unfold pyMain
    rw [hu, hp, hl]
    cases hr : (scrape_alerts cfg.envs 3).1 with
    | error e => simp [hr]
    | ok l =>
        by_cases he : l.isEmpty <;> simp [hr, he]

/-- Counterexample to C8 as stated: with both secrets present but a failing
browser launch, the run writes no output file either. -/
theorem c8_counterexample :
    strTruthy cfgLaunchFail.username = true ∧
    strTruthy cfgLaunchFail.password = true ∧
    (pyMain cfgLaunchFail).1 = none :=
  ⟨rfl, rfl, rfl⟩

/-- Witness for C8 (amended): a run without the identity secret writes
nothing and performs no events; a run with secrets and a healthy session
always writes a file. -/
theorem c8_missing_secrets_witness :
    pyMain cfgNoSecret = (none, []) ∧ ((pyMain cfgSoft).1).isSome = true :=
  ⟨c8_missing_secrets.1 cfgNoSecret (Or.inl rfl),
   c8_missing_secrets.2 cfgSoft rfl rfl rfl⟩

/-- Counterexample to C3 as stated: `"x=1.5,2.5"` contains neither `"@"` nor
`"q="` followed by a coordinate pair, so the claim demands a "not found"
result — yet the parser returns the pair, because the source's `[@q=]` is a
character class that also matches a bare `=` (or a bare `q`). -/
theorem c3_counterexample :
    parse_coordinates_from_url (some "x=1.5,2.5") = some (3 / 2, 5 / 2) ∧
    ¬ specCoordPattern "x=1.5,2.5" := by
  constructor
  · with_unfolding_all rfl
  · rintro ⟨pre, marker, a, b, post, heq, hm, -, -⟩
    rcases hm with h | h
    · subst h
      have hmem : '@' ∈ ("x=1.5,2.5").data := by
        rw [heq]; simp
      revert hmem; decide
    · subst h
      have hmem : 'q' ∈ ("x=1.5,2.5").data := by
        rw [heq]; simp
      revert hmem; decide

/-- C3 (amended): the parser returns `None` for an absent URL; for a present
URL it returns a pair exactly when the string contains a single character
among `@`, `q`, `=` (the source's `[@q=]` character class — not the literal
markers `"@"`/`"q="`) followed by two signed decimal numbers, each with a
fractional part, separated by a comma, taking the first such match; being a
total function it never raises; and `.../@37.123,-122.456,15z` yields
`(37.123, -122.456)`. -/
theorem c3_coordinate_parsing :
    parse_coordinates_from_url none = none ∧
    (∀ s : String, (parse_coordinates_from_url (some s)).isSome = true ↔
      codeCoordPattern s) ∧
    parse_coordinates_from_url
        (some "https://maps.google.com/maps/@37.123,-122.456,15z") =
      some (37123 / 1000, -122456 / 1000) := by
  refine ⟨rfl, ?_, by with_unfolding_all rfl⟩
  intro s
  by_cases hs : s = ""
  · subst hs
    constructor
    · intro h
      exact absurd h (by decide)
    · rintro ⟨pre, c, a, b, post, heq, -, -, -⟩
      have hd : ("" : String).data = [] := rfl
      rw [hd] at heq
      exact absurd heq.symm (by simp)
  · show (if (s == "") = true then none else searchCoords s.data).isSome = true ↔
      codeCoordPattern s
    rw [if_neg (by simp [hs])]
    exact searchCoords_isSome_iff s.data

/-- Witness for C3 (amended): the characterization applied at a concrete URL
whose marker is the `=` of a `q=` query parameter. -/
theorem c3_coordinate_parsing_witness :
    (parse_coordinates_from_url (some "q=10.5,-3.25")).isSome = true := by
  refine (c3_coordinate_parsing.2.1 "q=10.5,-3.25").mpr ?_
  exact ⟨['q'], '=', ['1', '0', '.', '5'], ['-', '3', '.', '2', '5'], [],
    by decide, Or.inr (Or.inr rfl), by decide, by decide⟩
